import Mathlib

/-!
Verification of the WhatsApp webhook ingestion service.

This file shallowly embeds the service's core (signature verification,
idempotent SQLite-backed storage, metrics collection, payload validation and
the `/webhook` handler) as executable Lean definitions, translated from the
Python sources (`app/main.py`, `app/storage.py`, `app/metrics.py`,
`app/models.py`), and proves or refutes the specified properties.

Modelling conventions:
* Python byte strings are `List Nat` (each element a byte value).
* Machine 32-bit words are `Nat` with explicit `% 2^32` truncation.
* Python floats (latency milliseconds) are modelled by `ℚ`, which captures
  all order comparisons against the integer bucket boundaries.
* Fallible Python code (functions that may raise) returns `Except`.
* The SQLite table is a list of rows; the `PRIMARY KEY` uniqueness constraint
  and `sqlite3.IntegrityError` are modelled explicitly in `insert_message`.
-/

namespace Whatsapp

/-! ### 32-bit word arithmetic (Python ints truncated as in SHA-256) -/

/-- Truncate to 32 bits. -/
def w32 (n : Nat) : Nat := n % 4294967296

/-- 32-bit right rotation. -/
def rotr32 (x n : Nat) : Nat := w32 ((x >>> n) ||| (x <<< (32 - n)))

/-! ### SHA-256 (the `hashlib.sha256` primitive used by `hmac.new`) -/

/-- The 64 SHA-256 round constants of FIPS 180-4 (in decimal). -/
def shaK : List Nat :=
  [1116352408, 1899447441, 3049323471, 3921009573, 961987163,
   1508970993, 2453635748, 2870763221, 3624381080, 310598401,
   607225278, 1426881987, 1925078388, 2162078206, 2614888103,
   3248222580, 3835390401, 4022224774, 264347078, 604807628,
   770255983, 1249150122, 1555081692, 1996064986, 2554220882,
   2821834349, 2952996808, 3210313671, 3336571891, 3584528711,
   113926993, 338241895, 666307205, 773529912, 1294757372,
   1396182291, 1695183700, 1986661051, 2177026350, 2456956037,
   2730485921, 2820302411, 3259730800, 3345764771, 3516065817,
   3600352804, 4094571909, 275423344, 430227734, 506948616,
   659060556, 883997877, 958139571, 1322822218, 1537002063,
   1747873779, 1955562222, 2024104815, 2227730452, 2361852424,
   2428436474, 2756734187, 3204031479, 3329325298]

/-- SHA-256 message padding: append `0x80`, zeros, and the 64-bit big-endian
bit length, reaching a multiple of 64 bytes. -/
def padMessage (msg : List Nat) : List Nat :=
  let len := msg.length
  let bitLen := len * 8
  let zeros := (119 - len % 64) % 64
  msg ++ [0x80] ++ List.replicate zeros 0 ++
    [(bitLen >>> 56) &&& 255, (bitLen >>> 48) &&& 255, (bitLen >>> 40) &&& 255,
     (bitLen >>> 32) &&& 255, (bitLen >>> 24) &&& 255, (bitLen >>> 16) &&& 255,
     (bitLen >>> 8) &&& 255, bitLen &&& 255]

/-- Big-endian 4-byte groups to 32-bit words. -/
def bytesToWords : List Nat → List Nat
  | b0 :: b1 :: b2 :: b3 :: rest =>
      ((b0 <<< 24) ||| (b1 <<< 16) ||| (b2 <<< 8) ||| b3) :: bytesToWords rest
  | _ => []

/-- Split a byte list into 64-byte chunks (structural recursion on a fuel
bound so the definition reduces in the kernel). -/
def chunks64Aux : Nat → List Nat → List (List Nat)
  | 0, _ => []
  | _, [] => []
  | fuel + 1, l => l.take 64 :: chunks64Aux fuel (l.drop 64)

/-- Split a byte list into 64-byte chunks. -/
def chunks64 (l : List Nat) : List (List Nat) := chunks64Aux l.length l

/-- Extend the 16 schedule words to 64, building the list in reverse
(most recent word first). -/
def schedExt : Nat → List Nat → List Nat
  | 0, rev => rev
  | n + 1, rev =>
    let g := fun i => rev.getD i 0
    let s0 := (rotr32 (g 14) 7) ^^^ (rotr32 (g 14) 18) ^^^ ((g 14) >>> 3)
    let s1 := (rotr32 (g 1) 17) ^^^ (rotr32 (g 1) 19) ^^^ ((g 1) >>> 10)
    schedExt n (w32 (g 15 + s0 + g 6 + s1) :: rev)

/-- The eight SHA-256 working variables. -/
structure Hash8 where
  a : Nat
  b : Nat
  c : Nat
  d : Nat
  e : Nat
  f : Nat
  g : Nat
  hh : Nat
  deriving DecidableEq

/-- One SHA-256 compression round. -/
def compressRound (st : Hash8) (k w : Nat) : Hash8 :=
  let S1 := (rotr32 st.e 6) ^^^ (rotr32 st.e 11) ^^^ (rotr32 st.e 25)
  let ch := (st.e &&& st.f) ^^^ ((st.e ^^^ 4294967295) &&& st.g)
  let temp1 := w32 (st.hh + S1 + ch + k + w)
  let S0 := (rotr32 st.a 2) ^^^ (rotr32 st.a 13) ^^^ (rotr32 st.a 22)
  let maj := (st.a &&& st.b) ^^^ (st.a &&& st.c) ^^^ (st.b &&& st.c)
  let temp2 := w32 (S0 + maj)
  ⟨w32 (temp1 + temp2), st.a, st.b, st.c, w32 (st.d + temp1), st.e, st.f, st.g⟩

/-- Compress one 64-byte chunk into the running hash state. -/
def compressChunk (h0 : Hash8) (chunk : List Nat) : Hash8 :=
  let ws := (schedExt 48 (bytesToWords chunk).reverse).reverse
  let st := (ws.zip shaK).foldl (fun s wk => compressRound s wk.2 wk.1) h0
  ⟨w32 (h0.a + st.a), w32 (h0.b + st.b), w32 (h0.c + st.c), w32 (h0.d + st.d),
   w32 (h0.e + st.e), w32 (h0.f + st.f), w32 (h0.g + st.g), w32 (h0.hh + st.hh)⟩

/-- SHA-256 over a byte list, as the eight final state words. -/
def sha256Words (msg : List Nat) : Hash8 :=
  (chunks64 (padMessage msg)).foldl compressChunk
    ⟨1779033703, 3144134277, 1013904242, 2773480762,
     1359893119, 2600822924, 528734635, 1541459225⟩

/-- Big-endian bytes of a 32-bit word. -/
def wordBytes (x : Nat) : List Nat :=
  [(x >>> 24) &&& 255, (x >>> 16) &&& 255, (x >>> 8) &&& 255, x &&& 255]

/-- SHA-256 digest as 32 bytes. -/
def sha256 (msg : List Nat) : List Nat :=
  let h := sha256Words msg
  wordBytes h.a ++ wordBytes h.b ++ wordBytes h.c ++ wordBytes h.d ++
    wordBytes h.e ++ wordBytes h.f ++ wordBytes h.g ++ wordBytes h.hh

/-! ### Hex encoding (`.hexdigest()`) -/

/-- Lower-case hex digit. -/
def hexChar (n : Nat) : Char := if n < 10 then Char.ofNat (48 + n) else Char.ofNat (87 + n)

/-- Two hex digits of a byte. -/
def byteHex (b : Nat) : List Char := [hexChar ((b >>> 4) &&& 15), hexChar (b &&& 15)]

/-- Hex string of a byte list. -/
def bytesToHex (bs : List Nat) : String :=
  String.mk (bs.foldr (fun b acc => byteHex b ++ acc) [])

/-! ### UTF-8 encoding (`str.encode()`) -/

/-- UTF-8 bytes of one character. -/
def utf8Char (c : Char) : List Nat :=
  let n := c.toNat
  if n < 128 then [n]
  else if n < 2048 then [192 ||| (n >>> 6), 128 ||| (n &&& 63)]
  else if n < 65536 then
    [224 ||| (n >>> 12), 128 ||| ((n >>> 6) &&& 63), 128 ||| (n &&& 63)]
  else
    [240 ||| (n >>> 18), 128 ||| ((n >>> 12) &&& 63), 128 ||| ((n >>> 6) &&& 63),
     128 ||| (n &&& 63)]

/-- UTF-8 bytes of a string. -/
def strBytes (s : String) : List Nat :=
  s.data.foldr (fun c acc => utf8Char c ++ acc) []

/-! ### HMAC-SHA256 (`hmac.new(secret.encode(), body, hashlib.sha256)`) -/

/-- HMAC-SHA256 over byte lists. -/
def hmacSha256 (key msg : List Nat) : List Nat :=
  let k0 := if key.length > 64 then sha256 key else key
  let kpad := k0 ++ List.replicate (64 - k0.length) 0
  let ipad := kpad.map (fun b => b ^^^ 0x36)
  let opad := kpad.map (fun b => b ^^^ 0x5c)
  sha256 (opad ++ sha256 (ipad ++ msg))

/-! ### Signature verification (`app/main.py`, `verify_signature`)

`hmac.compare_digest` on Python `str` arguments raises `TypeError` when either
string contains a non-ASCII character; otherwise it returns the (timing-safe)
equality of the two strings.  Fallibility is modelled with `Except`. -/

deriving instance DecidableEq for Except

/-- Python exception surrogate for `hmac.compare_digest`. -/
inductive PyError
  | typeError
  deriving DecidableEq

/-- ASCII character test (`ord(c) < 128`). -/
def isAsciiChar (c : Char) : Bool := c.toNat < 128

/-- ASCII string test. -/
def isAsciiStr (s : String) : Bool := s.data.all isAsciiChar

/-- `hmac.compare_digest` on two `str` values: `TypeError` unless both are
ASCII-only, else their equality (the timing side channel is outside the
functional model). -/
def compare_digest (a b : String) : Except PyError Bool :=
  if isAsciiStr a && isAsciiStr b then .ok (a == b) else .error .typeError

/-- `verify_signature(body, signature, secret)` from `app/main.py`. -/
def verify_signature (body : List Nat) (sig : String) (secret : String) :
    Except PyError Bool :=
  let expected := bytesToHex (hmacSha256 (strBytes secret) body)
  compare_digest expected sig

/-! ### Storage (`app/storage.py`)

The `messages` table is a list of rows in insertion order.  The
`message_id TEXT PRIMARY KEY` uniqueness constraint and `sqlite3` faults are
modelled explicitly: `insert_message` takes a fault parameter describing
whether the underlying `INSERT` raises nothing, an `IntegrityError` (which the
constraint violation on a duplicate key always does), or some other exception
(I/O failure, corruption). -/

/-- One row of the `messages` table. -/
structure MessageRow where
  message_id : String
  from_msisdn : String
  to_msisdn : String
  ts : String
  text : Option String
  created_at : String
  deriving DecidableEq

/-- Behaviour of the underlying `sqlite3` `INSERT` beyond the duplicate-key
case: no fault, a spurious `IntegrityError` not caused by the primary key
(e.g. a `NOT NULL` violation), or any other database exception. -/
inductive SqliteFault
  | noFault
  | integrityFault
  | otherFault
  deriving DecidableEq

/-- A propagated storage exception. -/
inductive DbError
  | storageFault
  deriving DecidableEq

/-- Does a row with this `message_id` exist (the `PRIMARY KEY` check)? -/
def hasMessageId (st : List MessageRow) (mid : String) : Bool :=
  st.any (fun r => r.message_id == mid)

/-- `Storage.insert_message`: returns `(success, is_duplicate)`.  A duplicate
primary key raises `sqlite3.IntegrityError`, which the function catches and
reports as `(True, True)` without modifying the table; the same `except`
branch catches every other `IntegrityError`.  Any other exception propagates
(the connection context manager rolls back, leaving the table unchanged). -/
def insert_message (st : List MessageRow) (row : MessageRow) (fault : SqliteFault) :
    Except DbError (List MessageRow × (Bool × Bool)) :=
  match fault with
  | .otherFault => .error .storageFault
  | .integrityFault => .ok (st, (true, true))
  | .noFault =>
      if hasMessageId st row.message_id then .ok (st, (true, true))
      else .ok (st ++ [row], (true, false))

/-! #### `Storage.get_messages` -/

/-- SQLite `LIKE` matching (fuel-based so it reduces in the kernel):
`%` matches any sequence, `_` matches any single character, and ordinary
characters compare case-insensitively for ASCII (SQLite's default). -/
def likeMatchAux : Nat → List Char → List Char → Bool
  | 0, _, _ => false
  | _, [], [] => true
  | _, [], _ :: _ => false
  | fuel + 1, '%' :: ps, [] => likeMatchAux fuel ps []
  | fuel + 1, '%' :: ps, c :: cs =>
      likeMatchAux fuel ps (c :: cs) || likeMatchAux fuel ('%' :: ps) cs
  | _, '_' :: _, [] => false
  | fuel + 1, '_' :: ps, _ :: cs => likeMatchAux fuel ps cs
  | _, _ :: _, [] => false
  | fuel + 1, p :: ps, c :: cs =>
      (p.toLower == c.toLower) && likeMatchAux fuel ps cs

/-- SQLite `LIKE`: does `pat` match all of `s`? -/
def likeMatch (pat s : List Char) : Bool :=
  likeMatchAux (pat.length + s.length + 1) pat s

/-- SQLite orders `TEXT` columns by byte-wise (`memcmp`) comparison, which on
UTF-8 agrees with code-point lexicographic order: strict version. -/
def strLtAux : List Char → List Char → Bool
  | [], [] => false
  | [], _ :: _ => true
  | _ :: _, [] => false
  | a :: as, b :: bs =>
      if a.toNat < b.toNat then true
      else if b.toNat < a.toNat then false
      else strLtAux as bs

/-- Strict text-column comparison. -/
def strLt (a b : String) : Bool := strLtAux a.data b.data

/-- Non-strict text-column comparison. -/
def strLe (a b : String) : Bool := strLt a b || (a == b)

/-- `strLtAux` is transitive. -/
theorem strLtAux_trans (as : List Char) : ∀ bs cs,
    strLtAux as bs = true → strLtAux bs cs = true → strLtAux as cs = true := by
  induction as with
  | nil =>
    intro bs cs h1 h2
    cases bs with
    | nil => simp [strLtAux] at h1
    | cons b bs' =>
      cases cs with
      | nil => simp [strLtAux] at h2
      | cons c cs' => simp [strLtAux]
  | cons a as' ih =>
    intro bs cs h1 h2
    cases bs with
    | nil => simp [strLtAux] at h1
    | cons b bs' =>
      cases cs with
      | nil => simp [strLtAux] at h2
      | cons c cs' =>
        simp only [strLtAux] at h1 h2 ⊢
        by_cases hab : a.toNat < b.toNat
        · by_cases hbc : b.toNat < c.toNat
          · have hac : a.toNat < c.toNat := by omega
            simp [hac]
          · by_cases hcb : c.toNat < b.toNat
            · simp [hbc, hcb] at h2
            · have hac : a.toNat < c.toNat := by omega
              simp [hac]
        · by_cases hba : b.toNat < a.toNat
          · simp [hab, hba] at h1
          · simp only [if_neg hab, if_neg hba] at h1
            by_cases hbc : b.toNat < c.toNat
            · have hac : a.toNat < c.toNat := by omega
              simp [hac]
            · by_cases hcb : c.toNat < b.toNat
              · simp [hbc, hcb] at h2
              · simp only [if_neg hbc, if_neg hcb] at h2
                have hac : ¬ a.toNat < c.toNat := by omega
                have hca : ¬ c.toNat < a.toNat := by omega
                simp only [if_neg hac, if_neg hca]
                exact ih bs' cs' h1 h2

/-- If neither list precedes the other, they are equal. -/
theorem strLtAux_eq_of_not_lt (as : List Char) : ∀ bs,
    strLtAux as bs = false → strLtAux bs as = false → as = bs := by
  induction as with
  | nil =>
    intro bs h1 _
    cases bs with
    | nil => rfl
    | cons b bs' => simp [strLtAux] at h1
  | cons a as' ih =>
    intro bs h1 h2
    cases bs with
    | nil => simp [strLtAux] at h2
    | cons b bs' =>
      simp only [strLtAux] at h1 h2
      by_cases hab : a.toNat < b.toNat
      · simp [hab] at h1
      · by_cases hba : b.toNat < a.toNat
        · simp [hba] at h2
        · have h3 : a.toNat = b.toNat := by omega
          have habeq : a = b := Char.ext (UInt32.toNat.inj h3)
          subst habeq
          simp only [if_neg hab, if_neg hba] at h1 h2
          rw [ih bs' h1 h2]

/-- Python truthiness of an optional string parameter: `None` and `""` are
falsy, so `get_messages` adds no `WHERE` condition for them. -/
def optActive : Option String → Option String
  | some s => if s = "" then none else some s
  | none => none

/-- The `WHERE` predicate built by `get_messages`: conditions combine with
`AND`; `from_msisdn = ?`, `ts >= ?` (binary text comparison), and
`text LIKE '%' || q || '%'` (`NULL` text never matches `LIKE`). -/
def rowMatches (fromFilter since q : Option String) (r : MessageRow) : Bool :=
  (match optActive fromFilter with
   | some f => r.from_msisdn == f
   | none => true) &&
  (match optActive since with
   | some s => strLe s r.ts
   | none => true) &&
  (match optActive q with
   | some qq =>
       match r.text with
       | some t => likeMatch ("%" ++ qq ++ "%").data t.data
       | none => false
   | none => true)

/-- Strings with equal character lists are equal. -/
theorem stringDataInj {a b : String} (h : a.data = b.data) : a = b := String.ext h

/-- `strLt` is transitive. -/
theorem strLt_trans {a b c : String} (h1 : strLt a b = true) (h2 : strLt b c = true) :
    strLt a c = true :=
  strLtAux_trans a.data b.data c.data h1 h2

/-- `strLe` is transitive. -/
theorem strLe_trans {a b c : String} (h1 : strLe a b = true) (h2 : strLe b c = true) :
    strLe a c = true := by
  simp only [strLe, Bool.or_eq_true, beq_iff_eq] at h1 h2 ⊢
  rcases h1 with h1 | h1
  · rcases h2 with h2 | h2
    · exact Or.inl (strLt_trans h1 h2)
    · subst h2; exact Or.inl h1
  · subst h1; exact h2

/-- `strLe` is total. -/
theorem strLe_total (a b : String) : strLe a b = true ∨ strLe b a = true := by
  by_cases h1 : strLt a b = true
  · exact Or.inl (by simp [strLe, h1])
  · by_cases h2 : strLt b a = true
    · exact Or.inr (by simp [strLe, h2])
    · have he : a = b :=
        stringDataInj (strLtAux_eq_of_not_lt a.data b.data
          (Bool.eq_false_iff.mpr h1) (Bool.eq_false_iff.mpr h2))
      subst he
      exact Or.inl (by simp [strLe])

/-- `ORDER BY ts ASC, message_id ASC` as a total preorder on rows. -/
def rowOrd (r1 r2 : MessageRow) : Prop :=
  strLt r1.ts r2.ts = true ∨ (r1.ts = r2.ts ∧ strLe r1.message_id r2.message_id = true)

instance : DecidableRel rowOrd := fun r1 r2 =>
  inferInstanceAs (Decidable
    (strLt r1.ts r2.ts = true ∨ (r1.ts = r2.ts ∧ strLe r1.message_id r2.message_id = true)))

instance : IsTotal MessageRow rowOrd where
  total r1 r2 := by
    by_cases h1 : strLt r1.ts r2.ts = true
    · exact Or.inl (Or.inl h1)
    · by_cases h2 : strLt r2.ts r1.ts = true
      · exact Or.inr (Or.inl h2)
      · have he : r1.ts = r2.ts :=
          stringDataInj (strLtAux_eq_of_not_lt _ _
            (Bool.eq_false_iff.mpr h1) (Bool.eq_false_iff.mpr h2))
        rcases strLe_total r1.message_id r2.message_id with h3 | h3
        · exact Or.inl (Or.inr ⟨he, h3⟩)
        · exact Or.inr (Or.inr ⟨he.symm, h3⟩)

instance : IsTrans MessageRow rowOrd where
  trans r1 r2 r3 h12 h23 := by
    rcases h12 with h12 | ⟨e12, l12⟩
    · rcases h23 with h23 | ⟨e23, _⟩
      · exact Or.inl (strLt_trans h12 h23)
      · exact Or.inl (e23 ▸ h12)
    · rcases h23 with h23 | ⟨e23, l23⟩
      · exact Or.inl (by rw [e12]; exact h23)
      · exact Or.inr ⟨e12.trans e23, strLe_trans l12 l23⟩

/-- `Storage.get_messages`: filtered total count, then the filtered rows
ordered by `(ts, message_id)` with `LIMIT ? OFFSET ?`. -/
def get_messages (st : List MessageRow) (limit offset : Nat)
    (fromFilter since q : Option String) : List MessageRow × Nat :=
  let filtered := st.filter (rowMatches fromFilter since q)
  let total := filtered.length
  (((List.insertionSort rowOrd filtered).drop offset).take limit, total)

/-! #### `Storage.get_stats` -/

/-- `ORDER BY count DESC` on `(sender, count)` pairs. -/
def countDesc (a b : String × Nat) : Prop := b.2 ≤ a.2

instance : DecidableRel countDesc := fun a b => by
  unfold countDesc; infer_instance

instance : IsTotal (String × Nat) countDesc where
  total a b := le_total b.2 a.2

instance : IsTrans (String × Nat) countDesc where
  trans _ _ _ h1 h2 := le_trans h2 h1

/-- Minimum of a list of strings (`SELECT MIN(ts)`), `none` when empty. -/
def minTs : List String → Option String
  | [] => none
  | s :: rest => some (rest.foldl (fun a b => if strLt b a then b else a) s)

/-- Maximum of a list of strings (`SELECT MAX(ts)`), `none` when empty. -/
def maxTs : List String → Option String
  | [] => none
  | s :: rest => some (rest.foldl (fun a b => if strLt a b then b else a) s)

/-- The result record of `Storage.get_stats`. -/
structure Stats where
  total_messages : Nat
  senders_count : Nat
  messages_per_sender : List (String × Nat)
  first_message_ts : Option String
  last_message_ts : Option String
  deriving DecidableEq

/-- `Storage.get_stats`: total row count, distinct sender count, the per-sender
group counts ordered by count descending and truncated to 10 (`LIMIT 10`;
SQLite leaves the order among equal counts unspecified — the stable sort here
fixes one such order), and the `MIN`/`MAX` timestamps. -/
def get_stats (st : List MessageRow) : Stats :=
  let senders := st.map (fun r => r.from_msisdn)
  let grouped := senders.dedup.map (fun s => (s, senders.count s))
  { total_messages := st.length
    senders_count := senders.dedup.length
    messages_per_sender := (List.insertionSort countDesc grouped).take 10
    first_message_ts := minTs (st.map (fun r => r.ts))
    last_message_ts := maxTs (st.map (fun r => r.ts)) }

/-- Sum of the `count` fields of a `messages_per_sender` list. -/
def sumCounts (l : List (String × Nat)) : Nat := (l.map Prod.snd).sum

/-! ### Metrics (`app/metrics.py`)

Latency values are Python floats; they are modelled by `ℚ`, which represents
every comparison against the integer bucket boundaries faithfully.  The
per-request lock makes each operation atomic; the model is the sequential
state transformer guarded by that lock. -/

/-- The webhook-result labels passed to `inc_webhook_requests`. -/
inductive Outcome
  | created
  | duplicate
  | invalid_signature
  | validation_error
  | server_error
  deriving DecidableEq

/-- `MetricsCollector.LATENCY_BUCKETS` (milliseconds). -/
def LATENCY_BUCKETS : List ℚ := [10, 25, 50, 100, 250, 500, 1000, 2500, 5000, 10000]

/-- The mutable state of `MetricsCollector`.  `latency_buckets` holds the
per-boundary counts stored by `observe_latency`, parallel to
`LATENCY_BUCKETS`; `latency_inf` is the `float("inf")` entry of the dict. -/
structure MetricsCollector where
  http_requests : String × Nat → Nat
  webhook_requests : Outcome → Nat
  latency_buckets : List Nat
  latency_inf : Nat
  latency_count : Nat
  latency_sum : ℚ

/-- A fresh `MetricsCollector()`. -/
def initMetrics : MetricsCollector :=
  { http_requests := fun _ => 0
    webhook_requests := fun _ => 0
    latency_buckets := List.replicate 10 0
    latency_inf := 0
    latency_count := 0
    latency_sum := 0 }

namespace MetricsCollector

/-- `inc_http_requests(path, status)`. -/
def inc_http_requests (m : MetricsCollector) (path : String) (status : Nat) :
    MetricsCollector :=
  { m with http_requests :=
      fun k => if k = (path, status) then m.http_requests k + 1 else m.http_requests k }

/-- `inc_webhook_requests(result)`. -/
def inc_webhook_requests (m : MetricsCollector) (result : Outcome) : MetricsCollector :=
  { m with webhook_requests :=
      fun k => if k = result then m.webhook_requests k + 1 else m.webhook_requests k }

/-- `observe_latency(latency_ms)`: bumps count and sum, increments every
finite bucket whose boundary is `≥` the observation, and the `+Inf` entry. -/
def observe_latency (m : MetricsCollector) (latency_ms : ℚ) : MetricsCollector :=
  { m with
    latency_count := m.latency_count + 1
    latency_sum := m.latency_sum + latency_ms
    latency_buckets := (LATENCY_BUCKETS.zip m.latency_buckets).map
      (fun bc => if latency_ms ≤ bc.1 then bc.2 + 1 else bc.2)
    latency_inf := m.latency_inf + 1 }

/-- The `cumulative += self._latency_buckets[bucket]` loop of
`format_prometheus`. -/
def cumulativeLines (acc : Nat) : List Nat → List Nat
  | [] => []
  | c :: cs => (acc + c) :: cumulativeLines (acc + c) cs

/-- The numbers printed on the finite `request_latency_ms_bucket{le="..."}`
lines of `format_prometheus`, in ascending boundary order. -/
def format_bucket_lines (m : MetricsCollector) : List Nat :=
  cumulativeLines 0 m.latency_buckets

/-- The number printed on the `request_latency_ms_bucket{le="+Inf"}` line. -/
def format_inf_line (m : MetricsCollector) : Nat := m.latency_inf

/-- The number printed on the `request_latency_ms_count` line. -/
def format_count_line (m : MetricsCollector) : Nat := m.latency_count

/-- Total number of recorded webhook results, over the five labels. -/
def totalWebhookRequests (m : MetricsCollector) : Nat :=
  m.webhook_requests .created + m.webhook_requests .duplicate +
    m.webhook_requests .invalid_signature + m.webhook_requests .validation_error +
    m.webhook_requests .server_error

end MetricsCollector

/-- Is a list of naturals non-decreasing between adjacent entries? -/
def chainLeNat : List Nat → Bool
  | [] => true
  | [_] => true
  | a :: b :: rest => decide (a ≤ b) && chainLeNat (b :: rest)

/-- The rendered histogram as specified: each bucket line's count at most the
next one's (the `+Inf` line included), and the `+Inf` line equal to the total
observation count. -/
def histogramLinesOk (m : MetricsCollector) : Prop :=
  chainLeNat (m.format_bucket_lines ++ [m.format_inf_line]) = true ∧
    m.format_inf_line = m.format_count_line

instance (m : MetricsCollector) : Decidable (histogramLinesOk m) :=
  inferInstanceAs (Decidable
    (chainLeNat (m.format_bucket_lines ++ [m.format_inf_line]) = true ∧
      m.format_inf_line = m.format_count_line))

/-! ### Payload validation (`app/models.py`)

`WebhookMessage` with its pydantic field validators.  The embedding checks
the exact regular-expression shapes from the source on character lists
(`\d` is modelled as an ASCII digit, and the `$`-before-final-newline quirk
of Python regexes is not modelled; neither affects the claims below). -/

/-- A decoded JSON object for the expected schema: each field either absent
(`none`) or present with a string value (`text` may also be JSON `null`,
which coincides with absence for an `Optional` pydantic field). -/
structure RawPayload where
  message_id : Option String
  fromField : Option String
  to_ : Option String
  ts : Option String
  text : Option String
  deriving DecidableEq

/-- A validated `WebhookMessage`. -/
structure WebhookMessage where
  message_id : String
  from_ : String
  to_ : String
  ts : String
  text : Option String
  deriving DecidableEq

/-- One pydantic field error (location and message). -/
structure FieldError where
  loc : List String
  msg : String
  deriving DecidableEq

/-- ASCII digit. -/
def isDigitChar (c : Char) : Bool := 48 ≤ c.toNat && c.toNat ≤ 57

/-- `E164_PATTERN = ^\+\d+$`. -/
def validE164 (s : String) : Bool :=
  match s.data with
  | '+' :: rest => !rest.isEmpty && rest.all isDigitChar
  | _ => false

/-- Numeric value of an ASCII digit. -/
def digitVal (c : Char) : Nat := c.toNat - 48

/-- Gregorian leap year. -/
def isLeapYear (y : Nat) : Bool := y % 4 == 0 && (y % 100 != 0 || y % 400 == 0)

/-- Days in a month. -/
def daysInMonth (y m : Nat) : Nat :=
  if m = 2 then (if isLeapYear y then 29 else 28)
  else if m = 4 ∨ m = 6 ∨ m = 9 ∨ m = 11 then 30
  else 31

/-- `ISO8601_UTC_PATTERN = ^\d{4}-\d{2}-\d{2}T\d{2}:\d{2}:\d{2}Z$`: the shape
check plus extraction of the six numeric components. -/
def parseTs (s : String) : Option (Nat × Nat × Nat × Nat × Nat × Nat) :=
  match s.data with
  | [y1, y2, y3, y4, '-', m1, m2, '-', d1, d2, 'T',
     h1, h2, ':', n1, n2, ':', s1, s2, 'Z'] =>
      if [y1, y2, y3, y4, m1, m2, d1, d2, h1, h2, n1, n2, s1, s2].all isDigitChar then
        some (digitVal y1 * 1000 + digitVal y2 * 100 + digitVal y3 * 10 + digitVal y4,
              digitVal m1 * 10 + digitVal m2, digitVal d1 * 10 + digitVal d2,
              digitVal h1 * 10 + digitVal h2, digitVal n1 * 10 + digitVal n2,
              digitVal s1 * 10 + digitVal s2)
      else none
  | _ => none

/-- `validate_iso8601_utc`: the pattern must match and
`datetime.fromisoformat` must accept the instant (year ≥ 1, month 1–12,
day valid for the month, hour ≤ 23, minute ≤ 59, second ≤ 59). -/
def validTs (s : String) : Bool :=
  match parseTs s with
  | some (y, m, d, hh, mi, ss) =>
      decide (1 ≤ y) && decide (1 ≤ m) && decide (m ≤ 12) && decide (1 ≤ d) &&
        decide (d ≤ daysInMonth y m) && decide (hh ≤ 23) && decide (mi ≤ 59) &&
        decide (ss ≤ 59)
  | none => false

/-- `WebhookMessage(**payload)`: field presence, `min_length=1` on
`message_id`, E.164 checks on `from`/`to`, the timestamp validator on `ts`,
and `max_length=4096` on `text`; errors are collected per field. -/
def validateMessage (p : RawPayload) : Except (List FieldError) WebhookMessage :=
  let errs :=
    (match p.message_id with
     | none => [⟨["message_id"], "Field required"⟩]
     | some s => if 1 ≤ s.length then [] else
         [⟨["message_id"], "String should have at least 1 character"⟩]) ++
    (match p.fromField with
     | none => [⟨["from"], "Field required"⟩]
     | some s => if validE164 s then [] else
         [⟨["from"], "from must be in E.164 format"⟩]) ++
    (match p.to_ with
     | none => [⟨["to"], "Field required"⟩]
     | some s => if validE164 s then [] else
         [⟨["to"], "to must be in E.164 format"⟩]) ++
    (match p.ts with
     | none => [⟨["ts"], "Field required"⟩]
     | some s => if validTs s then [] else
         [⟨["ts"], "ts must be ISO-8601 UTC with Z suffix"⟩]) ++
    (match p.text with
     | none => []
     | some s => if s.length ≤ 4096 then [] else
         [⟨["text"], "String should have at most 4096 characters"⟩])
  match p.message_id, p.fromField, p.to_, p.ts with
  | some mid, some f, some t, some ts =>
      if errs.isEmpty then .ok ⟨mid, f, t, ts, p.text⟩ else .error errs
  | _, _, _, _ => .error errs

/-! ### The `/webhook` handler and middleware (`app/main.py`)

`json.loads` is Python standard library, external to the repository; the
handler is therefore parameterised by its outcome: `none` models a
`JSONDecodeError`, `some p` a decoded JSON object.  `datetime.now` is the
external `created_at` parameter, and the request latency measured by the
middleware is the external `latency_ms` parameter. -/

/-- Everything observable about one handler invocation: HTTP status, whether
the response body is the success body `\x7b"status":"ok"\x7d`, the sequence of
`inc_webhook_requests` calls made, and the table afterwards. -/
structure WebhookResult where
  status : Nat
  okBody : Bool
  incs : List Outcome
  store : List MessageRow
  deriving DecidableEq

/-- Python truthiness of `settings.webhook_secret`. -/
def secretTruthy : Option String → Bool
  | none => false
  | some s => !(s == "")

/-- The `POST /webhook` handler.  Gates in source order: configured secret,
`X-Signature` header (absent or empty is falsy and short-circuits;
`verify_signature` raising lands in the final `except` branch), JSON
decoding, schema validation, idempotent insert; the final `except` converts
any unexpected exception (including storage faults) to a 500. -/
def webhook (secret : Option String) (body : List Nat) (xSignature : Option String)
    (jsonBody : Option RawPayload) (fault : SqliteFault) (created_at : String)
    (st : List MessageRow) : WebhookResult :=
  if secretTruthy secret = false then
    ⟨503, false, [.server_error], st⟩
  else
    match xSignature with
    | none => ⟨401, false, [.invalid_signature], st⟩
    | some sig =>
      if sig = "" then ⟨401, false, [.invalid_signature], st⟩
      else
        match verify_signature body sig ((secret).getD "") with
        | .error _ => ⟨500, false, [.server_error], st⟩
        | .ok false => ⟨401, false, [.invalid_signature], st⟩
        | .ok true =>
          match jsonBody with
          | none => ⟨422, false, [.validation_error], st⟩
          | some p =>
            match validateMessage p with
            | .error _ => ⟨422, false, [.validation_error], st⟩
            | .ok msg =>
              match insert_message st
                  ⟨msg.message_id, msg.from_, msg.to_, msg.ts, msg.text, created_at⟩
                  fault with
              | .error _ => ⟨500, false, [.server_error], st⟩
              | .ok (st2, _, isDup) =>
                  ⟨200, true, [if isDup then .duplicate else .created], st2⟩

/-- `logging_middleware`: after the handler responds, record the HTTP counter
and exactly one latency observation. -/
def logging_middleware (m : MetricsCollector) (path : String) (status : Nat)
    (latency_ms : ℚ) : MetricsCollector :=
  (m.inc_http_requests path status).observe_latency latency_ms

/-- Replay the handler's `inc_webhook_requests` calls on the collector. -/
def applyWebhookIncs (m : MetricsCollector) (incs : List Outcome) : MetricsCollector :=
  incs.foldl (fun mm o => mm.inc_webhook_requests o) m

/-- One full `POST /webhook` request: handler effects, then the middleware's
metrics updates. -/
def handleWebhookRequest (secret : Option String) (body : List Nat)
    (xSignature : Option String) (jsonBody : Option RawPayload)
    (fault : SqliteFault) (created_at : String) (st : List MessageRow)
    (m : MetricsCollector) (latency_ms : ℚ) : WebhookResult × MetricsCollector :=
  let r := webhook secret body xSignature jsonBody fault created_at st
  (r, logging_middleware (applyWebhookIncs m r.incs) "/webhook" r.status latency_ms)

/-- Literal (unescaped) prefix test on character lists. -/
def prefixEq : List Char → List Char → Bool
  | [], _ => true
  | _ :: _, [] => false
  | a :: as, b :: bs => a == b && prefixEq as bs

/-- Literal (unescaped) contiguous-substring test on character lists. -/
def containsSeq (q : List Char) : List Char → Bool
  | [] => prefixEq q []
  | c :: cs => prefixEq q (c :: cs) || containsSeq q cs

end Whatsapp

namespace Whatsapp

/-! ## Sanity checks of the cryptographic embedding against published
test vectors (FIPS 180-4 / RFC 2202 style). -/

set_option maxRecDepth 100000

example : bytesToHex (sha256 (strBytes "abc")) =
    "ba7816bf8f01cfea414140de5dae2223b00361a396177a9cb410ff61f20015ad" := by decide

example : bytesToHex (hmacSha256 (strBytes "key")
      (strBytes "The quick brown fox jumps over the lazy dog")) =
    "f7bc83f430538424b13298e6aa6fb143ef4d59a14946175997479dbc2d1a3cd8" := by decide

/-! ## Helper lemmas -/

/-- A nonempty all-`%` pattern (or the empty pattern against the empty
string) matches everything, given sufficient fuel. -/
theorem likeMatchAux_all_percent :
    ∀ (fuel : Nat) (ps t : List Char), (∀ p ∈ ps, p = '%') → (ps = [] → t = []) →
      ps.length + t.length < fuel → likeMatchAux fuel ps t = true := by
  intro fuel
  induction fuel with
  | zero => intro ps t _ _ h; omega
  | succ f ih =>
    intro ps t hall hnil hlen
    cases ps with
    | nil =>
      cases t with
      | nil => rfl
      | cons c cs => exact absurd (hnil rfl) (List.cons_ne_nil c cs)
    | cons p ps' =>
      have hp : p = '%' := hall p (List.mem_cons_self p ps')
      subst hp
      cases t with
      | nil =>
        show likeMatchAux f ps' [] = true
        exact ih ps' [] (fun q hq => hall q (List.mem_cons_of_mem _ hq))
          (fun _ => rfl) (by simp only [List.length_cons, List.length_nil] at hlen ⊢; omega)
      | cons c cs =>
        show (likeMatchAux f ps' (c :: cs) || likeMatchAux f ('%' :: ps') cs) = true
        have h2 : likeMatchAux f ('%' :: ps') cs = true :=
          ih ('%' :: ps') cs hall (by simp)
            (by simp only [List.length_cons] at hlen ⊢; omega)
        rw [h2, Bool.or_true]

/-- The pattern `%%%` (the interpolation of `q = "%"`) matches every string. -/
theorem likeMatch_triple_percent (t : List Char) :
    likeMatch ['%', '%', '%'] t = true := by
  unfold likeMatch
  exact likeMatchAux_all_percent _ _ _ (by decide) (by simp) (by simp)

/-- Appending `[r]` when no row of `st` carries `r`'s id leaves `r` as the
only row with that id. -/
theorem filter_append_self (st : List MessageRow) (r1 : MessageRow)
    (habs : hasMessageId st r1.message_id = false) :
    (st ++ [r1]).filter (fun r => r.message_id == r1.message_id) = [r1] := by
  have hnil : st.filter (fun r => r.message_id == r1.message_id) = [] := by
    rw [List.filter_eq_nil_iff]
    intro a ha
    have hall := List.any_eq_false.mp habs a ha
    simpa using hall
  simp [List.filter_append, hnil]

/-- The `PRIMARY KEY` probe sees a row appended with the probed id. -/
theorem hasMessageId_append_self (st : List MessageRow) (r : MessageRow) :
    hasMessageId (st ++ [r]) r.message_id = true := by
  simp [hasMessageId]

/-! ## Concrete fixtures used by the individual claims -/

/-- Row with timestamp T1. -/
def rowT1 : MessageRow := ⟨"c", "+11", "+21", "2025-01-01T00:00:00Z", none, "c1"⟩

/-- First (by id) of the two rows sharing timestamp T2. -/
def rowT2a : MessageRow := ⟨"a", "+12", "+22", "2025-01-02T00:00:00Z", some "x", "c2"⟩

/-- Second (by id) of the two rows sharing timestamp T2. -/
def rowT2b : MessageRow := ⟨"b", "+13", "+23", "2025-01-02T00:00:00Z", none, "c3"⟩

/-- Row with timestamp T3. -/
def rowT3 : MessageRow := ⟨"d", "+14", "+24", "2025-01-03T00:00:00Z", none, "c4"⟩

/-- A store holding T1 < T2 = T2' < T3, inserted in scrambled order. -/
def demoStore : List MessageRow := [rowT3, rowT2b, rowT2a, rowT1]

/-- A store with eleven distinct senders, one message each. -/
def elevenStore : List MessageRow :=
  [⟨"m01", "+11", "+2", "2025-01-01T00:00:00Z", none, "c"⟩,
   ⟨"m02", "+12", "+2", "2025-01-01T00:00:00Z", none, "c"⟩,
   ⟨"m03", "+13", "+2", "2025-01-01T00:00:00Z", none, "c"⟩,
   ⟨"m04", "+14", "+2", "2025-01-01T00:00:00Z", none, "c"⟩,
   ⟨"m05", "+15", "+2", "2025-01-01T00:00:00Z", none, "c"⟩,
   ⟨"m06", "+16", "+2", "2025-01-01T00:00:00Z", none, "c"⟩,
   ⟨"m07", "+17", "+2", "2025-01-01T00:00:00Z", none, "c"⟩,
   ⟨"m08", "+18", "+2", "2025-01-01T00:00:00Z", none, "c"⟩,
   ⟨"m09", "+19", "+2", "2025-01-01T00:00:00Z", none, "c"⟩,
   ⟨"m10", "+20", "+2", "2025-01-01T00:00:00Z", none, "c"⟩,
   ⟨"m11", "+21", "+2", "2025-01-01T00:00:00Z", none, "c"⟩]

/-- A small store with two senders and three messages. -/
def smallStore : List MessageRow :=
  [⟨"m1", "+11", "+2", "2025-01-01T00:00:00Z", none, "c"⟩,
   ⟨"m2", "+11", "+2", "2025-01-02T00:00:00Z", none, "c"⟩,
   ⟨"m3", "+12", "+2", "2025-01-03T00:00:00Z", none, "c"⟩]

/-- A one-row store whose text is `"hello"`. -/
def helloStore : List MessageRow :=
  [⟨"m1", "+1", "+2", "2025-01-01T00:00:00Z", some "hello", "c"⟩]

/-- The metrics state after exactly one latency observation of 5 ms. -/
def latencyObserved5 : MetricsCollector := initMetrics.observe_latency 5

/-! ## The claims -/

/-- C2: when the first of two same-id insert attempts succeeds, the first
attempt appends exactly its row and reports `(True, False)`; the second
attempt returns `(True, True)`, modifies nothing, adds no row, and the only
row with that id afterwards is exactly the first attempt's row, all field
values included. -/
theorem insert_message_first_writer_retained
    (st : List MessageRow) (r1 r2 : MessageRow)
    (hid : r2.message_id = r1.message_id)
    (habs : hasMessageId st r1.message_id = false) :
    insert_message st r1 .noFault = .ok (st ++ [r1], (true, false)) ∧
    insert_message (st ++ [r1]) r2 .noFault = .ok (st ++ [r1], (true, true)) ∧
    (st ++ [r1]).filter (fun r => r.message_id == r1.message_id) = [r1] := by
  refine ⟨?_, ?_, filter_append_self st r1 habs⟩
  · simp [insert_message, habs]
  · simp [insert_message, hid, hasMessageId_append_self]

/-- First concrete insert attempt for the C2 witness. -/
def wRow1 : MessageRow := ⟨"m1", "+1", "+2", "2025-01-01T00:00:00Z", some "a", "c1"⟩

/-- Second concrete insert attempt (same id, all other fields different). -/
def wRow2 : MessageRow := ⟨"m1", "+9", "+8", "2026-02-02T00:00:00Z", none, "c2"⟩

/-- C2 witness: the two-attempt scenario at a concrete store and rows. -/
theorem insert_message_first_writer_retained_witness :
    insert_message [] wRow1 .noFault = .ok ([] ++ [wRow1], (true, false)) ∧
    insert_message ([] ++ [wRow1]) wRow2 .noFault = .ok ([] ++ [wRow1], (true, true)) ∧
    ([] ++ [wRow1]).filter (fun r => r.message_id == wRow1.message_id) = [wRow1] :=
  insert_message_first_writer_retained [] wRow1 wRow2 (by decide) (by decide)

/-- C3: evaluating the code at the failing input.  After a single 5 ms
observation the rendered finite bucket lines read 1,2,…,10 (the stored
buckets are already cumulative and `format_prometheus` accumulates them a
second time), the `+Inf` line and the count line read 1, so the claimed
monotonicity of bucket lines (the `le="10000"` line against the `+Inf` line)
fails, while `+Inf` does equal the observation count. -/
theorem format_prometheus_histogram_not_monotone :
    latencyObserved5.format_bucket_lines = [1, 2, 3, 4, 5, 6, 7, 8, 9, 10] ∧
    latencyObserved5.format_inf_line = 1 ∧
    latencyObserved5.format_count_line = 1 ∧
    ¬ histogramLinesOk latencyObserved5 := by decide

/-- C6: every page returned by `get_messages` is sorted by
`(ts ascending, message_id ascending)`; and on the concrete store with
timestamps T1 < T2 = T2' < T3 (inserted in scrambled order) the page is T1,
then the two T2 rows in `message_id` order, then T3. -/
theorem get_messages_sorted_by_ts_then_id :
    (∀ (st : List MessageRow) (limit offset : Nat) (ff since q : Option String),
      ((get_messages st limit offset ff since q).1).Pairwise rowOrd) ∧
    (get_messages demoStore 50 0 none none none).1 = [rowT1, rowT2a, rowT2b, rowT3] := by
  constructor
  · intro st limit offset ff since q
    have hs : (List.insertionSort rowOrd (st.filter (rowMatches ff since q))).Pairwise rowOrd :=
      List.sorted_insertionSort rowOrd _
    exact hs.drop.take
  · decide

/-- C7: the `total` returned by `get_messages` is computed by a separate
`COUNT(*)` over the same `WHERE` clause, so it is identical for any two
`limit`/`offset` pairs and equals the number of rows satisfying the filter
predicate. -/
theorem get_messages_total_independent_of_pagination
    (st : List MessageRow) (ff since q : Option String) (l1 o1 l2 o2 : Nat) :
    (get_messages st l1 o1 ff since q).2 = (get_messages st l2 o2 ff since q).2 ∧
    (get_messages st l1 o1 ff since q).2 = (st.filter (rowMatches ff since q)).length :=
  ⟨rfl, rfl⟩

/-- C9: `insert_message` never returns the documented failure outcome
`(False, False)`: whatever the fault behaviour, the success flag of a
returned pair is `true`; a spurious `IntegrityError` is reported as the
duplicate outcome `(True, True)`, and any other storage fault propagates as
an exception, not as a return value. -/
theorem insert_message_never_returns_failure (st : List MessageRow) (row : MessageRow) :
    (∀ (f : SqliteFault) (st2 : List MessageRow) (d : Bool),
      insert_message st row f ≠ .ok (st2, (false, d))) ∧
    insert_message st row .integrityFault = .ok (st, (true, true)) ∧
    insert_message st row .otherFault = .error .storageFault := by
  refine ⟨?_, rfl, rfl⟩
  intro f st2 d
  cases f with
  | noFault =>
    simp only [insert_message]
    split <;> simp
  | integrityFault => simp [insert_message]
  | otherFault => simp [insert_message]

/-- C4 (amended): when the store has at most 10 distinct senders — so the
`LIMIT 10` truncation drops nothing — the counts in `messages_per_sender`
sum to `total_messages`. -/
theorem get_stats_sum_counts_eq_total (st : List MessageRow)
    (h : (get_stats st).senders_count ≤ 10) :
    sumCounts (get_stats st).messages_per_sender = (get_stats st).total_messages := by
  have hlen : (List.insertionSort countDesc
      ((st.map (fun r => r.from_msisdn)).dedup.map
        (fun s => (s, (st.map (fun r => r.from_msisdn)).count s)))).length ≤ 10 := by
    rw [(List.perm_insertionSort countDesc _).length_eq, List.length_map]
    exact h
  show sumCounts ((List.insertionSort countDesc
      ((st.map (fun r => r.from_msisdn)).dedup.map
        (fun s => (s, (st.map (fun r => r.from_msisdn)).count s)))).take 10) = st.length
  rw [List.take_of_length_le hlen]
  unfold sumCounts
  rw [((List.perm_insertionSort countDesc _).map Prod.snd).sum_eq, List.map_map]
  have hcomp : (Prod.snd ∘ fun s => (s, (st.map (fun r => r.from_msisdn)).count s)) =
      fun s => (st.map (fun r => r.from_msisdn)).count s := rfl
  rw [hcomp, List.sum_map_count_dedup_eq_length, List.length_map]

/-- C4 witness: a store with two senders and three messages satisfies the
hypothesis and the sum equals the total. -/
theorem get_stats_sum_counts_eq_total_witness :
    (get_stats smallStore).senders_count ≤ 10 ∧
    sumCounts (get_stats smallStore).messages_per_sender =
      (get_stats smallStore).total_messages :=
  ⟨by decide, get_stats_sum_counts_eq_total smallStore (by decide)⟩

/-- C4 counterexample: with eleven distinct senders the `LIMIT 10` truncation
makes the sum (10) differ from `total_messages` (11), refuting the claim for
an arbitrary store state. -/
theorem get_stats_sum_counts_ne_total_eleven_senders :
    sumCounts (get_stats elevenStore).messages_per_sender = 10 ∧
    (get_stats elevenStore).total_messages = 11 ∧
    sumCounts (get_stats elevenStore).messages_per_sender ≠
      (get_stats elevenStore).total_messages := by decide

/-- Hex digits are ASCII. -/
theorem hexChar_ascii (n : Nat) (h : n ≤ 15) : (hexChar n).toNat < 128 := by
  interval_cases n <;> decide

/-- Both hex digits of a byte are ASCII. -/
theorem byteHex_ascii (b : Nat) : (byteHex b).all isAsciiChar = true := by
  have h1 : (b >>> 4) &&& 15 ≤ 15 := Nat.and_le_right
  have h2 : b &&& 15 ≤ 15 := Nat.and_le_right
  simp [byteHex, isAsciiChar, hexChar_ascii _ h1, hexChar_ascii _ h2]

/-- A `.hexdigest()` string is always ASCII. -/
theorem bytesToHex_ascii (bs : List Nat) : isAsciiStr (bytesToHex bs) = true := by
  show (bs.foldr (fun b acc => byteHex b ++ acc) []).all isAsciiChar = true
  induction bs with
  | nil => rfl
  | cons b bs ih =>
    simp only [List.foldr_cons, List.all_append, ih, byteHex_ascii, Bool.and_self]

/-- C5 (amended): for an ASCII signature string `verify_signature` returns,
without raising, exactly the equality of the supplied signature with the
hex HMAC-SHA256 of the body (an absent or empty `X-Signature` header is
short-circuited to 401 by the caller before `verify_signature` runs;
the constant-time character of the comparison is a timing property outside
the functional model). -/
theorem verify_signature_ascii_sig (body : List Nat) (sig secret : String)
    (h : isAsciiStr sig = true) :
    verify_signature body sig secret =
      .ok (bytesToHex (hmacSha256 (strBytes secret) body) == sig) := by
  simp [verify_signature, compare_digest, bytesToHex_ascii, h]

/-- C5 witness: at a concrete ASCII signature the theorem applies, and the
comparison concretely evaluates to `false`. -/
theorem verify_signature_ascii_sig_witness :
    isAsciiStr "00" = true ∧
    verify_signature (strBytes "") "00" "s" =
      .ok (bytesToHex (hmacSha256 (strBytes "s") (strBytes "")) == "00") :=
  ⟨by decide, verify_signature_ascii_sig (strBytes "") "00" "s" (by decide)⟩

/-- C5 counterexample: `hmac.compare_digest` raises `TypeError` on a
non-ASCII signature string (such as a latin-1 decoded header byte), so
`verify_signature` does not "never raise"; the `/webhook` handler surfaces
this as a 500, not a 401. -/
theorem verify_signature_raises_on_non_ascii :
    verify_signature (strBytes "") "é" "s" = .error .typeError := by decide

/-- C10: the `q` filter interpolates `q` between `%` wildcards without
escaping, so `q = "%"` (pattern `%%%`) matches every row whose text is
non-null; concretely the store whose only text is `"hello"` is returned in
full for `q = "%"` although `"hello"` does not literally contain `"%"`. -/
theorem get_messages_q_wildcards_unescaped :
    (∀ (mid f t ts ca txt : String),
      rowMatches none none (some "%") ⟨mid, f, t, ts, some txt, ca⟩ = true) ∧
    (get_messages helloStore 50 0 none none (some "%")).1 = helloStore ∧
    containsSeq "%".data "hello".data = false := by
  refine ⟨?_, by decide, by decide⟩
  intro mid f t ts ca txt
  show ((true && true) && likeMatch ("%" ++ "%" ++ "%" : String).data txt.data) = true
  rw [show ("%" ++ "%" ++ "%" : String).data = ['%', '%', '%'] from rfl]
  rw [likeMatch_triple_percent]
  rfl

/-- Every branch of the handler records exactly one webhook-result counter
increment. -/
theorem webhook_incs_singleton (secret : Option String) (body : List Nat)
    (xSignature : Option String) (jsonBody : Option RawPayload) (fault : SqliteFault)
    (created_at : String) (st : List MessageRow) :
    ∃ o, (webhook secret body xSignature jsonBody fault created_at st).incs = [o] := by
  unfold webhook
  repeat' split
  all_goals exact ⟨_, rfl⟩

/-- One `inc_webhook_requests` call raises the total by exactly one. -/
theorem totalWebhook_inc (m : MetricsCollector) (o : Outcome) :
    (m.inc_webhook_requests o).totalWebhookRequests = m.totalWebhookRequests + 1 := by
  cases o <;>
    simp [MetricsCollector.inc_webhook_requests, MetricsCollector.totalWebhookRequests] <;>
    omega

/-- C8: for every `POST /webhook` request — whichever gate it exits at —
the handler performs exactly one webhook-result counter increment, and after
the middleware runs, the webhook-result total has grown by exactly one and
the latency histogram holds exactly one more observation. -/
theorem webhook_metrics_exactly_once (secret : Option String) (body : List Nat)
    (xSignature : Option String) (jsonBody : Option RawPayload) (fault : SqliteFault)
    (created_at : String) (st : List MessageRow) (m : MetricsCollector) (latency_ms : ℚ) :
    (webhook secret body xSignature jsonBody fault created_at st).incs.length = 1 ∧
    (handleWebhookRequest secret body xSignature jsonBody fault created_at st m
        latency_ms).2.totalWebhookRequests = m.totalWebhookRequests + 1 ∧
    (handleWebhookRequest secret body xSignature jsonBody fault created_at st m
        latency_ms).2.latency_count = m.latency_count + 1 := by
  obtain ⟨o, ho⟩ := webhook_incs_singleton secret body xSignature jsonBody fault created_at st
  refine ⟨by rw [ho]; rfl, ?_, ?_⟩
  · simp only [handleWebhookRequest]
    rw [ho]
    exact totalWebhook_inc m o
  · simp only [handleWebhookRequest]
    rw [ho]
    rfl

/-- On the success path (configured secret, non-empty verified signature,
decoded and schema-valid payload, no storage fault) the handler answers
200/ok and either appends the one new row or — on a duplicate id — leaves
the table untouched and reports `duplicate`. -/
theorem webhook_success_path
    (sec : String) (body : List Nat) (sig : String) (p : RawPayload)
    (msg : WebhookMessage) (ca : String) (st : List MessageRow)
    (hsec : sec ≠ "") (hsig : sig ≠ "")
    (hv : verify_signature body sig sec = .ok true)
    (hp : validateMessage p = .ok msg) :
    webhook (some sec) body (some sig) (some p) .noFault ca st =
      if hasMessageId st msg.message_id then ⟨200, true, [.duplicate], st⟩
      else ⟨200, true, [.created],
        st ++ [⟨msg.message_id, msg.from_, msg.to_, msg.ts, msg.text, ca⟩]⟩ := by
  have h1 : secretTruthy (some sec) = true := by simp [secretTruthy, hsec]
  unfold webhook
  rw [h1]
  rw [if_neg (by simp : ¬ (true = false))]
  dsimp only
  rw [if_neg hsig]
  rw [show ((some sec).getD "") = sec from rfl]
  rw [hv]
  dsimp only
  rw [hp]
  dsimp only
  unfold insert_message
  by_cases hdup : hasMessageId st msg.message_id
  · rw [if_pos hdup, if_pos hdup]; rfl
  · rw [if_neg hdup, if_neg hdup]; rfl

/-- Two consecutive `POST /webhook` calls against the same store. -/
def webhookTwice (sec : String) (body1 : List Nat) (sig1 : String) (p1 : RawPayload)
    (ca1 : String) (body2 : List Nat) (sig2 : String) (p2 : RawPayload) (ca2 : String)
    (st : List MessageRow) : WebhookResult × WebhookResult :=
  let r1 := webhook (some sec) body1 (some sig1) (some p1) .noFault ca1 st
  (r1, webhook (some sec) body2 (some sig2) (some p2) .noFault ca2 r1.store)

/-- C1: posting two valid signed payloads carrying the same `message_id`
(the second possibly differing in every other field) yields 200 with the
success body on both calls and leaves exactly one row with that id in the
store. -/
theorem webhook_idempotent_same_id
    (sec : String) (body1 body2 : List Nat) (sig1 sig2 : String)
    (p1 p2 : RawPayload) (m1 m2 : WebhookMessage) (ca1 ca2 : String)
    (st : List MessageRow)
    (hsec : sec ≠ "") (hs1 : sig1 ≠ "") (hs2 : sig2 ≠ "")
    (hv1 : verify_signature body1 sig1 sec = .ok true)
    (hv2 : verify_signature body2 sig2 sec = .ok true)
    (hp1 : validateMessage p1 = .ok m1)
    (hp2 : validateMessage p2 = .ok m2)
    (hid : m2.message_id = m1.message_id)
    (hst : (st.filter (fun r => r.message_id == m1.message_id)).length ≤ 1) :
    (webhookTwice sec body1 sig1 p1 ca1 body2 sig2 p2 ca2 st).1.status = 200 ∧
    (webhookTwice sec body1 sig1 p1 ca1 body2 sig2 p2 ca2 st).1.okBody = true ∧
    (webhookTwice sec body1 sig1 p1 ca1 body2 sig2 p2 ca2 st).2.status = 200 ∧
    (webhookTwice sec body1 sig1 p1 ca1 body2 sig2 p2 ca2 st).2.okBody = true ∧
    ((webhookTwice sec body1 sig1 p1 ca1 body2 sig2 p2 ca2 st).2.store.filter
        (fun r => r.message_id == m1.message_id)).length = 1 := by
  have e1 := webhook_success_path sec body1 sig1 p1 m1 ca1 st hsec hs1 hv1 hp1
  by_cases hdup : hasMessageId st m1.message_id
  · have e1' : webhook (some sec) body1 (some sig1) (some p1) .noFault ca1 st =
        ⟨200, true, [.duplicate], st⟩ := by rw [e1, if_pos hdup]
    have hdup2 : hasMessageId st m2.message_id = true := by rw [hid]; exact hdup
    have e2' : webhook (some sec) body2 (some sig2) (some p2) .noFault ca2 st =
        ⟨200, true, [.duplicate], st⟩ := by
      rw [webhook_success_path sec body2 sig2 p2 m2 ca2 st hsec hs2 hv2 hp2, if_pos hdup2]
    simp only [webhookTwice, e1', e2']
    refine ⟨trivial, trivial, trivial, trivial, ?_⟩
    obtain ⟨r, hr, hpr⟩ := List.any_eq_true.mp hdup
    have hmem : r ∈ st.filter (fun r => r.message_id == m1.message_id) :=
      List.mem_filter.mpr ⟨hr, hpr⟩
    have hpos : 0 < (st.filter (fun r => r.message_id == m1.message_id)).length :=
      List.length_pos.mpr (List.ne_nil_of_mem hmem)
    omega
  · have e1' : webhook (some sec) body1 (some sig1) (some p1) .noFault ca1 st =
        ⟨200, true, [.created],
          st ++ [⟨m1.message_id, m1.from_, m1.to_, m1.ts, m1.text, ca1⟩]⟩ := by
      rw [e1, if_neg hdup]
    set row1 : MessageRow := ⟨m1.message_id, m1.from_, m1.to_, m1.ts, m1.text, ca1⟩
    have hdup2 : hasMessageId (st ++ [row1]) m2.message_id = true := by
      rw [hid]
      exact hasMessageId_append_self st row1
    have e2' : webhook (some sec) body2 (some sig2) (some p2) .noFault ca2 (st ++ [row1]) =
        ⟨200, true, [.duplicate], st ++ [row1]⟩ := by
      rw [webhook_success_path sec body2 sig2 p2 m2 ca2 (st ++ [row1]) hsec hs2 hv2 hp2,
        if_pos hdup2]
    simp only [webhookTwice, e1', e2']
    refine ⟨trivial, trivial, trivial, trivial, ?_⟩
    have habs : hasMessageId st row1.message_id = false := by
      simpa using Bool.eq_false_iff.mpr hdup
    have hfil := filter_append_self st row1 habs
    rw [show (fun r : MessageRow => r.message_id == m1.message_id) =
        (fun r => r.message_id == row1.message_id) from rfl, hfil]
    rfl

/-- The raw JSON body of the C1 witness request. -/
def w1Body : List Nat :=
  strBytes "\x7b\"message_id\":\"m1\",\"from\":\"+1555\",\"to\":\"+1666\",\"ts\":\"2025-01-15T10:00:00Z\"\x7d"

/-- Its HMAC-SHA256 hex signature under the secret `"testsecret"`. -/
def w1Sig : String := "b06df204a98e9fe4eaf11b25ebcd09e772be753a36d385595e6c4dea85b876d0"

/-- Its decoded JSON object. -/
def w1Payload : RawPayload :=
  ⟨some "m1", some "+1555", some "+1666", some "2025-01-15T10:00:00Z", none⟩

/-- Its validated message. -/
def w1Msg : WebhookMessage := ⟨"m1", "+1555", "+1666", "2025-01-15T10:00:00Z", none⟩

/-- C1 witness: the concrete signed payload posted twice against the empty
store — both responses are 200/ok and exactly one `"m1"` row remains. -/
theorem webhook_idempotent_same_id_witness :
    (webhookTwice "testsecret" w1Body w1Sig w1Payload "c1" w1Body w1Sig w1Payload "c2"
        []).1.status = 200 ∧
    (webhookTwice "testsecret" w1Body w1Sig w1Payload "c1" w1Body w1Sig w1Payload "c2"
        []).1.okBody = true ∧
    (webhookTwice "testsecret" w1Body w1Sig w1Payload "c1" w1Body w1Sig w1Payload "c2"
        []).2.status = 200 ∧
    (webhookTwice "testsecret" w1Body w1Sig w1Payload "c1" w1Body w1Sig w1Payload "c2"
        []).2.okBody = true ∧
    ((webhookTwice "testsecret" w1Body w1Sig w1Payload "c1" w1Body w1Sig w1Payload "c2"
        []).2.store.filter (fun r => r.message_id == w1Msg.message_id)).length = 1 :=
  webhook_idempotent_same_id "testsecret" w1Body w1Body w1Sig w1Sig w1Payload w1Payload
    w1Msg w1Msg "c1" "c2" [] (by decide) (by decide) (by decide) (by decide) (by decide)
    (by decide) (by decide) rfl (by decide)

end Whatsapp
